import Mathlib

/-!
Verification of the request fan-out / dispatch layer and the VTO mask and
parameter composition logic of the sample-genai-design-studio repository.

The Python sources are shallowly embedded: the payload dictionaries that the
code builds (with literal dicts and conditional key insertion) are modelled as
a JSON-like value type, asynchronous Lambda invocations are modelled by the
list of submitted payloads together with a per-unit success flag, and the
external collaborators (translation, base64/PIL mask decoding, the Bedrock
calls themselves) are passed in as opaque function parameters.
-/

namespace GenaiDesignStudio

/-- JSON-like values, modelling the Python dictionaries that the code builds
and serialises with json.dumps. Objects keep insertion order, matching
Python dict semantics. -/
inductive JVal where
  | null : JVal
  | str : String → JVal
  | int : Int → JVal
  | num : Rat → JVal
  | bool : Bool → JVal
  | arr : List JVal → JVal
  | obj : List (String × JVal) → JVal

/-- Key lookup in an embedded Python dict (first match wins). -/
def jlookup (k : String) : List (String × JVal) → Option JVal
  | [] => none
  | (k2, v) :: rest => if k = k2 then some v else jlookup k rest

/-- The set of keys of an embedded Python dict. -/
def keys (kvs : List (String × JVal)) : List String := kvs.map Prod.fst

/-- Python truthiness of an optional string (None and the empty string are
falsy). -/
def truthyOpt : Option String → Bool
  | none => false
  | some s => s ≠ ""

/-- Python string rendering of an optional value inside an f-string
(None renders as the text None). -/
def optStr : Option String → String
  | none => "None"
  | some s => s

/-- Truthiness of the VTO_GEN_FUNCTION_NAME environment variable:
os.environ.get returns None when unset, and the code guards with
`if not VTO_GEN_FUNCTION_NAME`, which also rejects the empty string. -/
def functionNameSet : Option String → Bool
  | none => false
  | some s => s ≠ ""

/-! ## Text-to-image requests (src/lambda/api/app/routes/nova_model.py)

NovaModelRequest is the validated request body of the /vto/nova/model route.
Its schema module is not part of the sources; the fields below are exactly
those the route reads. -/

structure NovaModelRequest where
  group_id : String
  user_id : String
  uid : String
  prompt : String
  model_id : String
  cfg_scale : Rat
  quality : String
  height : Int
  width : Int
  number_of_images : Nat
  object_names : List String

/-- The text_to_image_params dict built for image i by invoke_nova2_parallel
(payload lines of nova_model.py): number_of_images is forced to 1, only the
i-th object name is forwarded, and image_index records i. -/
def nova2UnitParams (request : NovaModelRequest) (i : Nat) (name : String) :
    List (String × JVal) :=
  [("prompt", .str request.prompt),
   ("model_id", .str request.model_id),
   ("height", .int request.height),
   ("width", .int request.width),
   ("number_of_images", .int 1),
   ("object_names", .arr [.str name]),
   ("image_index", .int i)]

/-- The full per-unit payload submitted by invoke_nova2_parallel. -/
def nova2Payload (request : NovaModelRequest) (i : Nat) (name : String) : JVal :=
  .obj [("text_to_image_params", .obj (nova2UnitParams request i name))]

/-- The single aggregate payload built by invoke_nova_canvas_single:
cfg_scale and quality are forwarded, the full number_of_images and the full
object_names list are carried. -/
def novaCanvasParams (request : NovaModelRequest) : List (String × JVal) :=
  [("prompt", .str request.prompt),
   ("model_id", .str request.model_id),
   ("cfg_scale", .num request.cfg_scale),
   ("quality", .str request.quality),
   ("height", .int request.height),
   ("width", .int request.width),
   ("number_of_images", .int request.number_of_images),
   ("object_names", .arr (request.object_names.map .str))]

/-- The full payload submitted by invoke_nova_canvas_single. -/
def novaCanvasPayload (request : NovaModelRequest) : JVal :=
  .obj [("text_to_image_params", .obj (novaCanvasParams request))]

/-- The submission loop of invoke_nova2_parallel over a list of image
indices. Each iteration first builds the payload (outside the try block, so
an IndexError on object_names aborts the remaining iterations, modelled by
returning the submissions made so far) and then performs the asynchronous
invoke inside a try/except: a raising invoke (invokeFails i) is caught and
logged and the loop continues. Each element pairs the submitted payload with
whether its submission call succeeded. -/
def nova2SubmitLoop (request : NovaModelRequest) (invokeFails : Nat → Bool) :
    List Nat → List (JVal × Bool)
  | [] => []
  | i :: rest =>
    match request.object_names.get? i with
    | none => []
    | some name =>
        (nova2Payload request i name, !invokeFails i) ::
          nova2SubmitLoop request invokeFails rest

/-- invoke_nova2_parallel: one asynchronous Lambda invocation per requested
image, for i in range(number_of_images). -/
def invoke_nova2_parallel (request : NovaModelRequest) (invokeFails : Nat → Bool) :
    List (JVal × Bool) :=
  nova2SubmitLoop request invokeFails (List.range request.number_of_images)

/-- invoke_nova_canvas_single: one asynchronous Lambda invocation carrying
the whole request; a raising invoke is caught and logged. -/
def invoke_nova_canvas_single (request : NovaModelRequest) (invokeFails : Nat → Bool) :
    List (JVal × Bool) :=
  [(novaCanvasPayload request, !invokeFails 0)]

/-- invoke_nova_model_generation_lambda: short-circuits to no submissions
when VTO_GEN_FUNCTION_NAME is unset, dispatches to the parallel path exactly
when model_id is the designated nova2 identifier, and otherwise to the
single aggregate path. -/
def invoke_nova_model_generation_lambda (fn : Option String)
    (invokeFails : Nat → Bool) (request : NovaModelRequest) : List (JVal × Bool) :=
  if functionNameSet fn then
    if request.model_id = "nova2" then invoke_nova2_parallel request invokeFails
    else invoke_nova_canvas_single request invokeFails
  else []

/-- Response body of the /vto/nova/model route. -/
structure NovaModelResponse where
  request_id : String
  status : String
  object_names : List String
  message : String

/-- process_nova_model: the route handler invokes the generation Lambda
dispatcher (whose submissions are returned as the second component) and
immediately returns the accepted acknowledgment built only from the
request. -/
def process_nova_model (fn : Option String) (invokeFails : Nat → Bool)
    (request : NovaModelRequest) : NovaModelResponse × List (JVal × Bool) :=
  ({ request_id := request.uid
     status := "accepted"
     object_names := request.object_names
     message := "Nova Model processing request accepted. Images will be saved to S3." },
   invoke_nova_model_generation_lambda fn invokeFails request)

/-! ## VTO requests (src/lambda/api/app/routes/schemas/nova_vto.py and
src/lambda/api/app/routes/nova_vto.py) -/

/-- Validated request body of the /vto/nova/process route
(class NovaVTORequest). Literal enums are embedded as strings. -/
structure NovaVTORequest where
  group_id : String
  user_id : String
  date_folder : Option String
  timestamp : Option String
  uid : Option String
  object_names : Option (List String)
  source_image_object_name : String
  reference_image_object_name : String
  mask_image_object_name : Option String
  mask_type : String
  mask_prompt : Option String
  garment_class : String
  long_sleeve_style : Option String
  tucking_style : Option String
  outer_layer_style : Option String
  mask_shape : String
  mask_shape_prompt : String
  preserve_body_pose : String
  preserve_hands : String
  preserve_face : String
  merge_style : Option String
  return_mask : Bool
  number_of_images : Nat
  quality : String
  cfg_scale : Rat
  seed : Int

/-- Python emptiness of s.strip(): s consists only of whitespace. -/
def stripEmpty (s : String) : Bool := s.toList.all Char.isWhitespace

/-- Python falsy-or-blank test used by the model validator:
`not s or not s.strip()` on an optional string. -/
def blankOpt : Option String → Bool
  | none => true
  | some s => stripEmpty s

/-- The model validator validate_mask_dependencies of NovaVTORequest: an
IMAGE mask type requires a non-blank mask_image_object_name and a PROMPT
mask type requires a non-blank mask_prompt; a failing check raises a
ValueError (modelled as Except.error with the raised message), otherwise
the request passes validation unchanged. -/
def validate_mask_dependencies (r : NovaVTORequest) :
    Except String NovaVTORequest :=
  if r.mask_type = "IMAGE" ∧ blankOpt r.mask_image_object_name then
    .error "mask_image_object_name is required when mask_type is IMAGE"
  else if r.mask_type = "PROMPT" ∧ blankOpt r.mask_prompt then
    .error "mask_prompt is required when mask_type is PROMPT"
  else .ok r

/-- The vto_params payload dict built by invoke_vto_generation_lambda. -/
def vtoParamsPayload (request : NovaVTORequest) : List (String × JVal) :=
  [("source_image_object_name", .str request.source_image_object_name),
   ("reference_image_object_name", .str request.reference_image_object_name),
   ("mask_image_object_name",
      (request.mask_image_object_name.map JVal.str).getD .null),
   ("mask_type", .str request.mask_type),
   ("mask_prompt", .str ((request.mask_prompt).getD "")),
   ("garment_class", .str request.garment_class),
   ("long_sleeve_style", (request.long_sleeve_style.map JVal.str).getD .null),
   ("tucking_style", (request.tucking_style.map JVal.str).getD .null),
   ("outer_layer_style", (request.outer_layer_style.map JVal.str).getD .null),
   ("mask_shape", .str request.mask_shape),
   ("mask_shape_prompt", .str request.mask_shape_prompt),
   ("preserve_body_pose", .str request.preserve_body_pose),
   ("preserve_hands", .str request.preserve_hands),
   ("preserve_face", .str request.preserve_face),
   ("merge_style", (request.merge_style.map JVal.str).getD .null),
   ("return_mask", .bool request.return_mask),
   ("number_of_images", .int request.number_of_images),
   ("quality", .str request.quality),
   ("cfg_scale", .num request.cfg_scale),
   ("seed", .int request.seed),
   ("date_folder", (request.date_folder.map JVal.str).getD .null),
   ("timestamp_uid",
      .str (optStr request.timestamp ++ "_" ++ optStr request.uid)),
   ("object_names",
      ((request.object_names.map fun ns => JVal.arr (ns.map .str)).getD .null))]

/-- invoke_vto_generation_lambda: short-circuits to no submission when
VTO_GEN_FUNCTION_NAME is unset, otherwise performs one asynchronous invoke
of the generation Lambda inside a try/except (a raising invoke is caught
and logged). -/
def invoke_vto_generation_lambda (fn : Option String) (invokeFails : Bool)
    (request : NovaVTORequest) : List (JVal × Bool) :=
  if functionNameSet fn then
    [(.obj [("vto_params", .obj (vtoParamsPayload request))], !invokeFails)]
  else []

/-- Response body of the /vto/nova/process route (class NovaVTOResponse).
request_id is a required str in the pydantic model. -/
structure NovaVTOResponse where
  request_id : String
  status : String
  object_names : Option (List String)
  message : String

/-- Outcome of the /vto/nova/process handler: either the constructed
NovaVTOResponse, or the HTTPException raised with the given status code.
pydantic rejects request_id=None while the validated request's uid is
optional, so constructing the response with an absent uid raises a
ValidationError inside the try block, which the except clause converts to
HTTPException(500); the exception detail string (str of the pydantic
error) is not modelled. -/
inductive RouteResult where
  | response : NovaVTOResponse → RouteResult
  | httpException : Nat → RouteResult

/-- process_nova_vto: the route handler fires the asynchronous dispatcher
(submissions returned as the second component, before the response is
built) and then constructs the accepted acknowledgment from the request;
when the request carries no uid the response construction itself raises
and the handler answers HTTP 500 instead. -/
def process_nova_vto (fn : Option String) (invokeFails : Bool)
    (request : NovaVTORequest) : RouteResult × List (JVal × Bool) :=
  (match request.uid with
   | some uid =>
     .response
       { request_id := uid
         status := "accepted"
         object_names := request.object_names
         message := "VTO processing request accepted. Images will be saved to S3." }
   | none => .httpException 500,
   invoke_vto_generation_lambda fn invokeFails request)

/-! ## VTO payload composition
(process_vto_image in src/lambda/gen_vto_image/utils/vto.py)

The function is embedded up to the point where the composed inference_params
dict is handed to Bedrock; the translation collaborator
(translate_to_english) and the mask decode/binarize/encode pipeline
(base64_to_pil_image, pil_to_binary_mask, pil_image_to_base64) are passed
in as opaque string transformers. -/

/-- Python truthiness of a plain string. -/
def truthyStr (s : String) : Bool := s ≠ ""

/-- Arguments of process_vto_image that the payload composition reads. -/
structure VTOArgs where
  source_image_base64 : String
  reference_image_base64 : String
  mask_image_base64 : Option String
  mask_type : String
  mask_prompt : String
  garment_class : String
  long_sleeve_style : Option String
  tucking_style : Option String
  outer_layer_style : Option String
  mask_shape : String
  mask_shape_prompt : String
  preserve_body_pose : String
  preserve_hands : String
  preserve_face : String
  merge_style : Option String
  return_mask : Bool
  number_of_images : Int
  quality : String
  cfg_scale : Rat
  seed : Int

/-- The guard `if mask_prompt and mask_prompt.strip():` deciding whether the
prompt text overrides the declared mask type. -/
def maskPromptTruthy (args : VTOArgs) : Bool :=
  truthyStr args.mask_prompt && !stripEmpty args.mask_prompt

/-- actual_mask_type: PROMPT whenever a non-empty non-whitespace mask_prompt
is present, otherwise the caller-declared mask_type. -/
def actualMaskType (args : VTOArgs) : String :=
  if maskPromptTruthy args then "PROMPT" else args.mask_type

/-- processed_mask_prompt: the prompt is translated to English exactly when
it wins the mask-type resolution. -/
def processedMaskPrompt (translate : String → String) (args : VTOArgs) : String :=
  if maskPromptTruthy args then translate args.mask_prompt else args.mask_prompt

/-- The mask-strategy-specific entries added to virtualTryOnParams: a
promptBasedMask in the PROMPT state, a garmentBasedMask (with optional
styling sub-object attached only when non-empty) in the GARMENT state, and
in the IMAGE state an imageBasedMask holding the binarized mask, or the
missing-mask-image error when no mask image was provided. -/
def maskSpecificParams (translate : String → String) (processMask : String → String)
    (args : VTOArgs) : Except String (List (String × JVal)) :=
  if actualMaskType args = "PROMPT" then
    .ok [("promptBasedMask", .obj
      ([("maskPrompt", .str (processedMaskPrompt translate args))] ++
       (if truthyStr args.mask_shape_prompt ∧ args.mask_shape_prompt ≠ "DEFAULT" then
          [("maskShape", .str args.mask_shape_prompt)] else [])))]
  else if actualMaskType args = "GARMENT" then
    let garment_styling : List (String × JVal) :=
      (if truthyOpt args.long_sleeve_style then
         [("longSleeveStyle", .str (args.long_sleeve_style.getD ""))] else []) ++
      (if truthyOpt args.tucking_style then
         [("tuckingStyle", .str (args.tucking_style.getD ""))] else []) ++
      (if truthyOpt args.outer_layer_style then
         [("outerLayerStyle", .str (args.outer_layer_style.getD ""))] else [])
    .ok [("garmentBasedMask", .obj
      ([("garmentClass", .str args.garment_class)] ++
       (if garment_styling.isEmpty then [] else [("garmentStyling", .obj garment_styling)]) ++
       (if truthyStr args.mask_shape ∧ args.mask_shape ≠ "DEFAULT" then
          [("maskShape", .str args.mask_shape)] else [])))]
  else if actualMaskType args = "IMAGE" then
    if truthyOpt args.mask_image_base64 then
      .ok [("imageBasedMask", .obj
        [("maskImage", .str (processMask (args.mask_image_base64.getD "")))])]
    else
      .error "IMAGE mask type selected but no mask image provided"
  else
    .ok []

/-- The optional maskExclusions sub-object: attached only when at least one
of the preserve flags differs from DEFAULT. -/
def maskExclusions (args : VTOArgs) : List (String × JVal) :=
  (if truthyStr args.preserve_body_pose ∧ args.preserve_body_pose ≠ "DEFAULT" then
     [("preserveBodyPose", .str args.preserve_body_pose)] else []) ++
  (if truthyStr args.preserve_hands ∧ args.preserve_hands ≠ "DEFAULT" then
     [("preserveHands", .str args.preserve_hands)] else []) ++
  (if truthyStr args.preserve_face ∧ args.preserve_face ≠ "DEFAULT" then
     [("preserveFace", .str args.preserve_face)] else [])

/-- The image_gen_config dict: each optional generation control is inserted
only when it differs from its documented default (1 image, standard
quality, cfg scale 3.0, unset seed -1). -/
def imageGenConfig (args : VTOArgs) : List (String × JVal) :=
  (if args.number_of_images ≠ 1 then
     [("numberOfImages", .int args.number_of_images)] else []) ++
  (if args.quality ≠ "standard" then [("quality", .str args.quality)] else []) ++
  (if args.cfg_scale ≠ 3 then [("cfgScale", .num args.cfg_scale)] else []) ++
  (if args.seed ≠ -1 then [("seed", .int args.seed)] else [])

/-- The fully composed virtualTryOnParams dict. -/
def virtualTryOnParams (translate : String → String) (processMask : String → String)
    (args : VTOArgs) : Except String (List (String × JVal)) :=
  match maskSpecificParams translate processMask args with
  | .error e => .error e
  | .ok maskPart =>
    .ok ([("sourceImage", .str args.source_image_base64),
          ("referenceImage", .str args.reference_image_base64),
          ("maskType", .str (actualMaskType args))] ++
         (if args.return_mask then [("returnMask", .bool args.return_mask)] else []) ++
         maskPart ++
         (if (maskExclusions args).isEmpty then []
          else [("maskExclusions", .obj (maskExclusions args))]) ++
         (if truthyOpt args.merge_style then
            [("mergeStyle", .str (args.merge_style.getD ""))] else []))

/-- process_vto_image, embedded up to the composed inference_params dict
that is serialised and sent to Bedrock: the VIRTUAL_TRY_ON task payload,
with the imageGenerationConfig attached only when it is non-empty. -/
def process_vto_image (translate : String → String) (processMask : String → String)
    (args : VTOArgs) : Except String JVal :=
  match virtualTryOnParams translate processMask args with
  | .error e => .error e
  | .ok vtoP =>
    .ok (.obj ([("taskType", .str "VIRTUAL_TRY_ON"),
                ("virtualTryOnParams", .obj vtoP)] ++
               (if (imageGenConfig args).isEmpty then []
                else [("imageGenerationConfig", .obj (imageGenConfig args))])))

/-! ## Mask binarization
(pil_to_binary_mask in src/lambda/gen_vto_image/utils/core.py)

np.array(pil_image) is embedded as either a 3-dimensional array (rows of
pixels, each pixel a list of channel values) or a 2-dimensional grayscale
array. Channel values are the uint8 samples 0..255. -/

/-- The numpy array obtained from the PIL image. -/
inductive NPImage where
  | planes : List (List (List Nat)) → NPImage
  | gray : List (List Nat) → NPImage

/-- shape[2] of a 3-dimensional array (numpy arrays are rectangular, so the
length of the first pixel is the length of every pixel). -/
def lastDim (px : List (List (List Nat))) : Nat :=
  ((px.headD []).headD []).length

/-- np.mean of a pixel across its channel axis, as an exact rational. -/
def channelMean (pix : List Nat) : Rat :=
  (pix.sum : Rat) / (pix.length : Rat)

/-- pil_to_binary_mask: for a 4-channel (RGBA) array the alpha channel is
thresholded at 128 (strictly greater maps to 255, everything else to 0);
for any other 3-dimensional array the per-pixel channel mean is thresholded
the same way; a 2-dimensional array is thresholded directly. -/
def pil_to_binary_mask : NPImage → List (List Nat)
  | .planes px =>
    if lastDim px = 4 then
      px.map (fun row => row.map (fun pix => if 128 < pix.getD 3 0 then 255 else 0))
    else
      px.map (fun row => row.map (fun pix =>
        if (128 : Rat) < channelMean pix then 255 else 0))
  | .gray px =>
    px.map (fun row => row.map (fun v => if 128 < v then 255 else 0))

/-- Element access in a 2-dimensional embedded array. -/
def cellAt (px : List (List Nat)) (i j : Nat) : Option Nat :=
  (px.get? i).bind fun row => row.get? j

/-- Pixel access in a 3-dimensional embedded array. -/
def pixAt (px : List (List (List Nat))) (i j : Nat) : Option (List Nat) :=
  (px.get? i).bind fun row => row.get? j

/-! ## S3 saving loops

The loop `for idx, image_base64 in enumerate(images): if idx <
len(object_names): save under object_names[idx] else log` appears verbatim
in process_vto_image (vto.py), generate_text_to_image (gen_image.py) and
replace_background (replace_background.py). Its effect on object storage is
the list of (index, key) pairs for which a put is attempted. -/

/-- The (index, key) pairs for which the saving loop attempts an S3 put. -/
def saveImagesLoop (images object_names : List String) : List (Nat × String) :=
  images.enum.filterMap fun p =>
    if h : p.1 < object_names.length then some (p.1, object_names.get ⟨p.1, h⟩)
    else none

/-- The saving loop of process_vto_image (vto.py). -/
def process_vto_image_saves (images object_names : List String) :
    List (Nat × String) :=
  saveImagesLoop images object_names

/-- The saving loop of generate_text_to_image (gen_image.py). -/
def generate_text_to_image_saves (images object_names : List String) :
    List (Nat × String) :=
  saveImagesLoop images object_names

/-- The saving loop of replace_background (replace_background.py). -/
def replace_background_saves (images object_names : List String) :
    List (Nat × String) :=
  saveImagesLoop images object_names

/-! ## Nova 2 worker (src/lambda/gen_vto_image/utils/gen_image.py)

generate_with_nova2 receives the per-unit text_to_image_params dict. The
fragment relevant to the dropped cfg_scale/quality controls is embedded:
the ignored-parameter log lines, and the Converse API request built by
build_converse_request, which receives only the translated prompt and the
image dimensions. NOVA2_DEFAULT_INFERENCE_CONFIG comes from a module not
among the sources, so the inference config is an opaque parameter here. -/

/-- String read of params.get(key, default). -/
def jStrD (kvs : List (String × JVal)) (k : String) (d : String) : String :=
  match jlookup k kvs with
  | some (.str s) => s
  | _ => d

/-- Integer read of params.get(key, default). -/
def jIntD (kvs : List (String × JVal)) (k : String) (d : Int) : Int :=
  match jlookup k kvs with
  | some (.int n) => n
  | _ => d

/-- NOVA_MODEL_MAPPING from src/lambda/gen_vto_image/utils/core.py. -/
def NOVA_MODEL_MAPPING : List (String × String) :=
  [("amazon.nova-canvas-v1:0", "amazon.nova-canvas-v1:0"),
   ("amazon.titan-image-generator-v2:0", "amazon.titan-image-generator-v2:0")]

/-- get_bedrock_model_id: NOVA_MODEL_MAPPING.get(api_model_id,
api_model_id). -/
def get_bedrock_model_id (api_model_id : String) : String :=
  (NOVA_MODEL_MAPPING.lookup api_model_id).getD api_model_id

/-- build_nova2_system_prompt: the system prompt carrying the requested
image dimensions. -/
def build_nova2_system_prompt (height width : Int) : String :=
  "Generate an image with dimensions " ++ toString width ++ "x" ++
    toString height ++ " pixels based on the user\x27s request."

/-- build_converse_request: the Converse API request for Nova 2 Omni, built
from the prompt and the dimensions only, with the module-level default
inference config attached. -/
def build_converse_request (inferenceConfig : JVal) (prompt : String)
    (height width : Int) (bedrock_model_id : String) : JVal :=
  .obj [("modelId", .str bedrock_model_id),
        ("system", .arr [.obj [("text", .str (build_nova2_system_prompt height width))]]),
        ("messages", .arr [.obj
          [("role", .str "user"),
           ("content", .arr [.obj [("text", .str prompt)]])]]),
        ("inferenceConfig", inferenceConfig)]

/-- The ignored-parameter log lines emitted by generate_with_nova2: one
f-string line per cfg_scale/quality key present in the received params,
interpolating the received value (the parameters are logged as ignored,
never applied). render stands for the Python str() of the JSON-decoded
value inside the f-string. -/
def nova2IgnoredParamLogs (render : JVal → String)
    (params : List (String × JVal)) : List String :=
  (match jlookup "cfg_scale" params with
   | some v =>
     ["Ignoring cfg_scale parameter: " ++ render v ++ " (not supported by Nova 2)"]
   | none => []) ++
  (match jlookup "quality" params with
   | some v =>
     ["Ignoring quality parameter: " ++ render v ++ " (not supported by Nova 2)"]
   | none => [])

/-- The 400 Lambda response returned by generate_with_nova2 when the
received params carry no usable prompt (the body dict is modelled by its
content, before json.dumps). -/
def nova2PromptRequiredResponse : JVal :=
  .obj [("statusCode", .int 400),
        ("body", .obj [("error", .str "Prompt is required"),
                       ("message", .str "Nova 2 image generation failed")])]

/-- generate_with_nova2, embedded up to the Converse API call: when
params.get of the prompt is falsy the function returns the 400 response
before translating, logging or building anything; otherwise it emits the
ignored-parameter log lines and builds the outbound Converse request from
the translated prompt and the height/width params only. -/
def generate_with_nova2 (translate : String → String) (render : JVal → String)
    (inferenceConfig : JVal) (params : List (String × JVal)) :
    List String × Except JVal JVal :=
  if truthyStr (jStrD params "prompt" "") then
    (nova2IgnoredParamLogs render params,
     .ok (build_converse_request inferenceConfig
       (translate (jStrD params "prompt" ""))
       (jIntD params "height" 1024)
       (jIntD params "width" 1024)
       (get_bedrock_model_id "nova2")))
  else
    ([], .error nova2PromptRequiredResponse)

/-! ## Accessors used to state the properties -/

/-- The text_to_image_params dict inside a dispatched payload. -/
def unitParamsOf (payload : JVal) : List (String × JVal) :=
  match payload with
  | .obj (("text_to_image_params", .obj kvs) :: _) => kvs
  | _ => []

/-- The top-level key/value list of a successfully composed payload. -/
def topKvs (res : Except String JVal) : List (String × JVal) :=
  match res with
  | .ok (.obj kvs) => kvs
  | _ => []

/-- The virtualTryOnParams dict of a successfully composed VTO payload. -/
def payloadVtoParams (res : Except String JVal) : List (String × JVal) :=
  match jlookup "virtualTryOnParams" (topKvs res) with
  | some (.obj v) => v
  | _ => []

/-- The imageGenerationConfig dict of a successfully composed VTO payload
(empty when the key is absent). -/
def payloadImageGenConfig (res : Except String JVal) : List (String × JVal) :=
  match jlookup "imageGenerationConfig" (topKvs res) with
  | some (.obj c) => c
  | _ => []

/-! ## Concrete fixtures used by the witnesses -/

/-- A validated nova2 text-to-image request asking for 3 images. -/
def reqN2 : NovaModelRequest :=
  { group_id := "g1", user_id := "u1", uid := "req-1"
    prompt := "a red dress", model_id := "nova2"
    cfg_scale := 8, quality := "standard", height := 1024, width := 1024
    number_of_images := 3, object_names := ["n0", "n1", "n2"] }

/-- A validated Nova Canvas text-to-image request asking for 2 images. -/
def reqCanvas : NovaModelRequest :=
  { group_id := "g1", user_id := "u1", uid := "req-2"
    prompt := "a blue coat", model_id := "amazon.nova-canvas-v1:0"
    cfg_scale := 8, quality := "premium", height := 1024, width := 1024
    number_of_images := 2, object_names := ["m0", "m1"] }

/-- A VTO request declaring an IMAGE mask type without a mask image object
name. -/
def reqVtoImageNoMask : NovaVTORequest :=
  { group_id := "g1", user_id := "u1", date_folder := none, timestamp := none
    uid := some "req-3", object_names := some ["v0"]
    source_image_object_name := "src.png"
    reference_image_object_name := "ref.png"
    mask_image_object_name := none
    mask_type := "IMAGE", mask_prompt := some ""
    garment_class := "UPPER_BODY"
    long_sleeve_style := none, tucking_style := none, outer_layer_style := none
    mask_shape := "DEFAULT", mask_shape_prompt := "DEFAULT"
    preserve_body_pose := "DEFAULT", preserve_hands := "DEFAULT"
    preserve_face := "DEFAULT", merge_style := none, return_mask := false
    number_of_images := 1, quality := "premium", cfg_scale := 6.5, seed := -1 }

/-- A VTO request that passes validation (GARMENT mask type) but carries
no uid, so the handler cannot construct its response. -/
def reqVtoNoUid : NovaVTORequest :=
  { reqVtoImageNoMask with uid := none, mask_type := "GARMENT" }

/-- Per-unit worker params carrying a prompt together with the dropped
cfg_scale/quality controls. -/
def nova2ParamsWithCfg : List (String × JVal) :=
  [("prompt", .str "a red dress"), ("cfg_scale", .num 8),
   ("quality", .str "premium")]

/-- A concrete stand-in for the Python str() rendering of a JSON-decoded
value inside the worker's f-string log lines. -/
def renderValue : JVal → String := fun _ => "8.0"

/-- VTO execution arguments in the IMAGE state with no mask image. -/
def argsImageNoMask : VTOArgs :=
  { source_image_base64 := "c3Jj", reference_image_base64 := "cmVm"
    mask_image_base64 := none
    mask_type := "IMAGE", mask_prompt := ""
    garment_class := "UPPER_BODY"
    long_sleeve_style := none, tucking_style := none, outer_layer_style := none
    mask_shape := "DEFAULT", mask_shape_prompt := "DEFAULT"
    preserve_body_pose := "DEFAULT", preserve_hands := "DEFAULT"
    preserve_face := "DEFAULT", merge_style := none, return_mask := false
    number_of_images := 1, quality := "standard", cfg_scale := 3, seed := -1 }

/-- VTO execution arguments declaring GARMENT while carrying a non-empty
mask prompt. -/
def argsPromptWins : VTOArgs :=
  { argsImageNoMask with mask_type := "GARMENT", mask_prompt := "the hat" }

/-- VTO execution arguments with every generation control at its default. -/
def argsAllDefaults : VTOArgs :=
  { argsImageNoMask with mask_type := "GARMENT" }

/-- VTO execution arguments with every generation control away from its
default. -/
def argsNoDefaults : VTOArgs :=
  { argsImageNoMask with
      mask_type := "GARMENT", number_of_images := 4, quality := "premium"
      cfg_scale := 7, seed := 42 }

/-- The payload composed for argsAllDefaults. -/
def payloadAllDefaults : JVal :=
  match process_vto_image id id argsAllDefaults with
  | .ok p => p
  | .error _ => .null

/-- The payload composed for argsNoDefaults. -/
def payloadNoDefaults : JVal :=
  match process_vto_image id id argsNoDefaults with
  | .ok p => p
  | .error _ => .null

/-- A 2x2 RGBA array whose per-quadrant alpha values are 0, 0, 255, 255. -/
def quadPx : List (List (List Nat)) :=
  [[[10, 20, 30, 0], [40, 50, 60, 0]],
   [[70, 80, 90, 255], [100, 110, 120, 255]]]

/-- A 1x1 RGBA array whose single alpha value sits on the 128 boundary. -/
def boundaryPx : List (List (List Nat)) :=
  [[[10, 20, 30, 128]]]

/-! # Helper lemmas -/

lemma nova2SubmitLoop_eq (request : NovaModelRequest) (invokeFails : Nat → Bool) :
    ∀ l : List Nat, (∀ i ∈ l, i < request.object_names.length) →
      nova2SubmitLoop request invokeFails l =
        l.map fun i =>
          (nova2Payload request i (request.object_names.getD i ""), !invokeFails i) := by
  intro l
  induction l with
  | nil => intro _; rfl
  | cons i rest ih =>
    intro h
    have hi : i < request.object_names.length := h i (List.mem_cons_self i rest)
    simp only [nova2SubmitLoop, List.map_cons]
    cases hx : request.object_names.get? i with
    | none =>
      have := List.get?_eq_none.mp hx
      omega
    | some name =>
      have hname : request.object_names.getD i "" = name := by
        rw [List.get?_eq_getElem?] at hx
        simp [List.getD, hx]
      rw [hname, ih (fun j hj => h j (List.mem_cons_of_mem i hj))]

lemma invoke_nova_model_nova2 (fn : Option String) (invokeFails : Nat → Bool)
    (request : NovaModelRequest)
    (hfn : functionNameSet fn = true) (hm : request.model_id = "nova2")
    (hlen : request.number_of_images ≤ request.object_names.length) :
    invoke_nova_model_generation_lambda fn invokeFails request =
      (List.range request.number_of_images).map fun i =>
        (nova2Payload request i (request.object_names.getD i ""), !invokeFails i) := by
  rw [invoke_nova_model_generation_lambda, if_pos hfn, if_pos hm,
      invoke_nova2_parallel]
  exact nova2SubmitLoop_eq request invokeFails _
    (fun i hi => lt_of_lt_of_le (List.mem_range.mp hi) hlen)

lemma process_vto_image_ok_shape (t pm : String → String) (args : VTOArgs)
    (p : JVal) (h : process_vto_image t pm args = .ok p) :
    ∃ vtoP, virtualTryOnParams t pm args = .ok vtoP ∧
      p = .obj ([("taskType", .str "VIRTUAL_TRY_ON"),
                 ("virtualTryOnParams", .obj vtoP)] ++
                (if (imageGenConfig args).isEmpty then []
                 else [("imageGenerationConfig", .obj (imageGenConfig args))])) := by
  rw [process_vto_image] at h
  cases hv : virtualTryOnParams t pm args with
  | error e => rw [hv] at h; exact absurd h (by simp)
  | ok vtoP =>
    rw [hv] at h
    exact ⟨vtoP, rfl, by injection h with h2; rw [← h2]⟩

lemma virtualTryOnParams_maskType (t pm : String → String) (args : VTOArgs)
    (vtoP : List (String × JVal)) (h : virtualTryOnParams t pm args = .ok vtoP) :
    jlookup "maskType" vtoP = some (.str (actualMaskType args)) := by
  rw [virtualTryOnParams] at h
  cases hm : maskSpecificParams t pm args with
  | error e => rw [hm] at h; exact absurd h (by simp)
  | ok maskPart =>
    rw [hm] at h
    injection h with h2
    rw [← h2]
    simp [jlookup]

lemma payloadVtoParams_eq (t pm : String → String) (args : VTOArgs)
    (vtoP : List (String × JVal)) (h : virtualTryOnParams t pm args = .ok vtoP) :
    payloadVtoParams (process_vto_image t pm args) = vtoP := by
  rw [process_vto_image, h]
  simp [payloadVtoParams, topKvs, jlookup]

lemma payloadImageGenConfig_eq (t pm : String → String) (args : VTOArgs)
    (p : JVal) (h : process_vto_image t pm args = .ok p) :
    payloadImageGenConfig (process_vto_image t pm args) = imageGenConfig args := by
  obtain ⟨vtoP, hv, rfl⟩ := process_vto_image_ok_shape t pm args p h
  rw [process_vto_image, hv]
  by_cases he : (imageGenConfig args).isEmpty
  · rw [List.isEmpty_iff] at he
    simp [payloadImageGenConfig, topKvs, jlookup, he]
  · simp [payloadImageGenConfig, topKvs, jlookup, he]

lemma imageGenConfig_isEmpty_iff (args : VTOArgs) :
    (imageGenConfig args).isEmpty = true ↔
      (args.number_of_images = 1 ∧ args.quality = "standard" ∧
       args.cfg_scale = 3 ∧ args.seed = -1) := by
  by_cases h1 : args.number_of_images = 1 <;>
  by_cases h2 : args.quality = "standard" <;>
  by_cases h3 : args.cfg_scale = 3 <;>
  by_cases h4 : args.seed = -1 <;>
  simp [imageGenConfig, h1, h2, h3, h4]

lemma imageGenConfig_keys (args : VTOArgs) :
    ("numberOfImages" ∈ keys (imageGenConfig args) ↔ args.number_of_images ≠ 1) ∧
    ("quality" ∈ keys (imageGenConfig args) ↔ args.quality ≠ "standard") ∧
    ("cfgScale" ∈ keys (imageGenConfig args) ↔ args.cfg_scale ≠ 3) ∧
    ("seed" ∈ keys (imageGenConfig args) ↔ args.seed ≠ -1) := by
  by_cases h1 : args.number_of_images = 1 <;>
  by_cases h2 : args.quality = "standard" <;>
  by_cases h3 : args.cfg_scale = 3 <;>
  by_cases h4 : args.seed = -1 <;>
  simp [imageGenConfig, keys, h1, h2, h3, h4]

lemma cellAt_map_planes (px : List (List (List Nat))) (g : List Nat → Nat)
    (i j : Nat) :
    cellAt (px.map fun row => row.map g) i j = (pixAt px i j).map g := by
  simp only [cellAt, pixAt, List.get?_eq_getElem?, List.getElem?_map]
  cases px[i]? with
  | none => rfl
  | some row => simp [List.get?_eq_getElem?, List.getElem?_map]

lemma cellAt_map_gray (px : List (List Nat)) (g : Nat → Nat) (i j : Nat) :
    cellAt (px.map fun row => row.map g) i j = (cellAt px i j).map g := by
  simp only [cellAt, List.get?_eq_getElem?, List.getElem?_map]
  cases px[i]? with
  | none => rfl
  | some row => simp [List.get?_eq_getElem?, List.getElem?_map]

lemma mem_nova2SubmitLoop (request : NovaModelRequest) (invokeFails : Nat → Bool)
    (l : List Nat) (p : JVal × Bool) (h : p ∈ nova2SubmitLoop request invokeFails l) :
    ∃ i name, p = (nova2Payload request i name, !invokeFails i) := by
  induction l with
  | nil => exact absurd h (List.not_mem_nil p)
  | cons i rest ih =>
    rw [nova2SubmitLoop] at h
    cases hx : request.object_names.get? i with
    | none => rw [hx] at h; exact absurd h (List.not_mem_nil p)
    | some name =>
      rw [hx] at h
      rcases List.mem_cons.mp h with h | h
      · exact ⟨i, name, h⟩
      · exact ih h

lemma mem_saveImagesLoop (images names : List String) (idx : Nat) (key : String)
    (h : (idx, key) ∈ saveImagesLoop images names) :
    idx < names.length ∧ names.get? idx = some key := by
  rw [saveImagesLoop] at h
  obtain ⟨a, _, hf⟩ := List.mem_filterMap.mp h
  by_cases hlt : a.1 < names.length
  · rw [dif_pos hlt] at hf
    injection hf with hf
    obtain ⟨h1, h2⟩ := Prod.mk.injEq .. ▸ hf
    subst h1
    refine ⟨hlt, ?_⟩
    rw [List.get?_eq_getElem?, List.getElem?_eq_getElem hlt]
    simpa using h2
  · rw [dif_neg hlt] at hf
    exact absurd hf (by simp)

/-! # Claim theorems -/

/-- C1: for a validated text-to-image request with N pre-allocated object
names, the dispatcher submits exactly N payloads when model_id is nova2,
the i-th carrying image_index i, number_of_images 1 and the single object
name object_names[i]; for any other model_id it submits exactly one payload
carrying the full number_of_images and the complete object_names list. -/
theorem dispatch_planner_fanout (fn : Option String) (invokeFails : Nat → Bool)
    (request : NovaModelRequest)
    (hfn : functionNameSet fn = true)
    (hlen : request.number_of_images ≤ request.object_names.length) :
    (request.model_id = "nova2" →
       (invoke_nova_model_generation_lambda fn invokeFails request).length =
          request.number_of_images ∧
       ∀ i, i < request.number_of_images →
         (invoke_nova_model_generation_lambda fn invokeFails request).get? i =
           some (.obj [("text_to_image_params", .obj
             [("prompt", .str request.prompt),
              ("model_id", .str request.model_id),
              ("height", .int request.height),
              ("width", .int request.width),
              ("number_of_images", .int 1),
              ("object_names", .arr [.str (request.object_names.getD i "")]),
              ("image_index", .int i)])], !invokeFails i)) ∧
    (request.model_id ≠ "nova2" →
       invoke_nova_model_generation_lambda fn invokeFails request =
         [(.obj [("text_to_image_params", .obj
            [("prompt", .str request.prompt),
             ("model_id", .str request.model_id),
             ("cfg_scale", .num request.cfg_scale),
             ("quality", .str request.quality),
             ("height", .int request.height),
             ("width", .int request.width),
             ("number_of_images", .int request.number_of_images),
             ("object_names", .arr (request.object_names.map .str))])],
           !invokeFails 0)]) := by
  constructor
  · intro hm
    rw [invoke_nova_model_nova2 fn invokeFails request hfn hm hlen]
    constructor
    · simp
    · intro i hi
      simp [List.get?_eq_getElem?, List.getElem?_map, List.getElem?_range hi,
            nova2Payload, nova2UnitParams]
  · intro hm
    rw [invoke_nova_model_generation_lambda, if_pos hfn, if_neg hm]
    rfl

/-- C1 witness: the theorem applied to the concrete nova2 request reqN2
(3 images) and the concrete Nova Canvas request reqCanvas. -/
theorem dispatch_planner_fanout_witness :
    functionNameSet (some "genfn") = true ∧
    reqN2.number_of_images ≤ reqN2.object_names.length ∧
    reqN2.model_id = "nova2" ∧
    (invoke_nova_model_generation_lambda (some "genfn") (fun _ => false) reqN2).length = 3 ∧
    (invoke_nova_model_generation_lambda (some "genfn") (fun _ => false) reqCanvas).length = 1 := by
  refine ⟨by decide, by decide, by decide, ?_, ?_⟩
  · exact ((dispatch_planner_fanout (some "genfn") (fun _ => false) reqN2
      (by decide) (by decide)).1 (by decide)).1
  · rw [(dispatch_planner_fanout (some "genfn") (fun _ => false) reqCanvas
      (by decide) (by decide)).2 (by decide)]
    rfl

/-- C2: whenever mask_prompt is non-empty and not all whitespace, the
resolved mask strategy is PROMPT regardless of the declared mask_type, and
the composed payload carries a promptBasedMask whose maskPrompt is the
translated prompt; only when mask_prompt is empty or whitespace does the
declared mask_type become the strategy. -/
theorem mask_prompt_precedence (t pm : String → String) (args : VTOArgs) :
    (args.mask_prompt ≠ "" ∧ stripEmpty args.mask_prompt = false →
       ∃ vtoP, virtualTryOnParams t pm args = .ok vtoP ∧
         payloadVtoParams (process_vto_image t pm args) = vtoP ∧
         jlookup "maskType" vtoP = some (.str "PROMPT") ∧
         ∃ pbm, jlookup "promptBasedMask" vtoP = some (.obj pbm) ∧
           jlookup "maskPrompt" pbm = some (.str (t args.mask_prompt))) ∧
    (args.mask_prompt = "" ∨ stripEmpty args.mask_prompt = true →
       ∀ p, process_vto_image t pm args = .ok p →
         jlookup "maskType" (payloadVtoParams (process_vto_image t pm args)) =
           some (.str args.mask_type)) := by
  constructor
  · rintro ⟨h1, h2⟩
    have hms : maskPromptTruthy args = true := by
      simp [maskPromptTruthy, truthyStr, h1, h2]
    have hmt : actualMaskType args = "PROMPT" := by simp [actualMaskType, hms]
    have hmsp : maskSpecificParams t pm args = .ok
        [("promptBasedMask", .obj
          ([("maskPrompt", .str (t args.mask_prompt))] ++
           (if truthyStr args.mask_shape_prompt ∧ args.mask_shape_prompt ≠ "DEFAULT"
            then [("maskShape", .str args.mask_shape_prompt)] else [])))] := by
      simp [maskSpecificParams, hmt, processedMaskPrompt, hms]
    have hv : virtualTryOnParams t pm args = .ok
        ([("sourceImage", .str args.source_image_base64),
          ("referenceImage", .str args.reference_image_base64),
          ("maskType", .str (actualMaskType args))] ++
         (if args.return_mask then [("returnMask", .bool args.return_mask)] else []) ++
         [("promptBasedMask", .obj
           ([("maskPrompt", .str (t args.mask_prompt))] ++
            (if truthyStr args.mask_shape_prompt ∧ args.mask_shape_prompt ≠ "DEFAULT"
             then [("maskShape", .str args.mask_shape_prompt)] else [])))] ++
         (if (maskExclusions args).isEmpty then []
          else [("maskExclusions", .obj (maskExclusions args))]) ++
         (if truthyOpt args.merge_style then
            [("mergeStyle", .str (args.merge_style.getD ""))] else [])) := by
      rw [virtualTryOnParams, hmsp]
    refine ⟨_, hv, payloadVtoParams_eq t pm args _ hv, ?_, ?_⟩
    · by_cases hr : args.return_mask <;> simp [jlookup, hmt, hr]
    · refine ⟨[("maskPrompt", .str (t args.mask_prompt))] ++
        (if truthyStr args.mask_shape_prompt ∧ args.mask_shape_prompt ≠ "DEFAULT"
         then [("maskShape", .str args.mask_shape_prompt)] else []), ?_, ?_⟩
      · by_cases hr : args.return_mask <;> simp [jlookup, hr]
      · simp [jlookup]
  · intro h p hp
    have hms : maskPromptTruthy args = false := by
      rcases h with h | h <;> simp [maskPromptTruthy, truthyStr, h]
    obtain ⟨vtoP, hv, rfl⟩ := process_vto_image_ok_shape t pm args p hp
    rw [payloadVtoParams_eq t pm args vtoP hv,
        virtualTryOnParams_maskType t pm args vtoP hv]
    simp [actualMaskType, hms]

/-- C2 witness: the theorem applied to argsPromptWins, which declares
mask_type GARMENT while carrying the non-blank mask prompt. -/
theorem mask_prompt_precedence_witness :
    (argsPromptWins.mask_prompt ≠ "" ∧
       stripEmpty argsPromptWins.mask_prompt = false) ∧
    argsPromptWins.mask_type = "GARMENT" ∧
    jlookup "maskType" (payloadVtoParams (process_vto_image id id argsPromptWins)) =
      some (.str "PROMPT") := by
  refine ⟨⟨by decide, by decide⟩, rfl, ?_⟩
  obtain ⟨vtoP, hv, hpv, hmt, _⟩ :=
    (mask_prompt_precedence id id argsPromptWins).1 ⟨by decide, by decide⟩
  rw [hpv, hmt]

/-- C3: the composed imageGenerationConfig carries each of numberOfImages,
quality, cfgScale and seed exactly when the corresponding argument differs
from its default (1, standard, 3.0, -1), and when all four are at their
defaults the payload carries no imageGenerationConfig key at all. -/
theorem image_gen_config_omission (t pm : String → String) (args : VTOArgs)
    (p : JVal) (h : process_vto_image t pm args = .ok p) :
    ("numberOfImages" ∈ keys (payloadImageGenConfig (process_vto_image t pm args)) ↔
       args.number_of_images ≠ 1) ∧
    ("quality" ∈ keys (payloadImageGenConfig (process_vto_image t pm args)) ↔
       args.quality ≠ "standard") ∧
    ("cfgScale" ∈ keys (payloadImageGenConfig (process_vto_image t pm args)) ↔
       args.cfg_scale ≠ 3) ∧
    ("seed" ∈ keys (payloadImageGenConfig (process_vto_image t pm args)) ↔
       args.seed ≠ -1) ∧
    (args.number_of_images = 1 ∧ args.quality = "standard" ∧
       args.cfg_scale = 3 ∧ args.seed = -1 →
       jlookup "imageGenerationConfig" (topKvs (process_vto_image t pm args)) =
         none) := by
  rw [payloadImageGenConfig_eq t pm args p h]
  obtain ⟨hk1, hk2, hk3, hk4⟩ := imageGenConfig_keys args
  refine ⟨hk1, hk2, hk3, hk4, ?_⟩
  intro hdef
  have he : (imageGenConfig args).isEmpty = true :=
    (imageGenConfig_isEmpty_iff args).mpr hdef
  obtain ⟨vtoP, hv, rfl⟩ := process_vto_image_ok_shape t pm args p h
  rw [process_vto_image, hv]
  rw [List.isEmpty_iff] at he
  simp [topKvs, jlookup, he]

/-- C3 witness: the theorem applied to argsAllDefaults (every control at
its default: no imageGenerationConfig at all) and argsNoDefaults (every
control away from its default: cfgScale present). -/
theorem image_gen_config_omission_witness :
    process_vto_image id id argsAllDefaults = .ok payloadAllDefaults ∧
    process_vto_image id id argsNoDefaults = .ok payloadNoDefaults ∧
    jlookup "imageGenerationConfig"
      (topKvs (process_vto_image id id argsAllDefaults)) = none ∧
    ("cfgScale" ∈ keys (payloadImageGenConfig (process_vto_image id id argsNoDefaults)) ↔
       argsNoDefaults.cfg_scale ≠ 3) := by
  refine ⟨rfl, rfl, ?_, ?_⟩
  · exact (image_gen_config_omission id id argsAllDefaults payloadAllDefaults
      rfl).2.2.2.2 ⟨rfl, rfl, rfl, rfl⟩
  · exact (image_gen_config_omission id id argsNoDefaults payloadNoDefaults
      rfl).2.2.1

/-- C7: a VTO request declaring mask_type IMAGE without a usable mask image
object name fails schema validation with the required-field error, and a
VTO execution resolved to the IMAGE state with no mask image returns the
missing-mask-image error instead of falling back to another strategy. -/
theorem image_mask_missing_rejected :
    (∀ r : NovaVTORequest, r.mask_type = "IMAGE" →
       blankOpt r.mask_image_object_name = true →
       validate_mask_dependencies r =
         .error "mask_image_object_name is required when mask_type is IMAGE") ∧
    (∀ (t pm : String → String) (args : VTOArgs), args.mask_type = "IMAGE" →
       maskPromptTruthy args = false →
       truthyOpt args.mask_image_base64 = false →
       process_vto_image t pm args =
         .error "IMAGE mask type selected but no mask image provided") := by
  constructor
  · intro r h1 h2
    simp [validate_mask_dependencies, h1, h2]
  · intro t pm args h1 h2 h3
    have hmt : actualMaskType args = "IMAGE" := by simp [actualMaskType, h2, h1]
    have hmsp : maskSpecificParams t pm args =
        .error "IMAGE mask type selected but no mask image provided" := by
      simp [maskSpecificParams, hmt, h3]
    rw [process_vto_image, virtualTryOnParams, hmsp]

/-- C7 witness: the theorem applied to the concrete request
reqVtoImageNoMask and the concrete execution arguments argsImageNoMask. -/
theorem image_mask_missing_rejected_witness :
    reqVtoImageNoMask.mask_type = "IMAGE" ∧
    blankOpt reqVtoImageNoMask.mask_image_object_name = true ∧
    validate_mask_dependencies reqVtoImageNoMask =
      .error "mask_image_object_name is required when mask_type is IMAGE" ∧
    argsImageNoMask.mask_type = "IMAGE" ∧
    truthyOpt argsImageNoMask.mask_image_base64 = false ∧
    process_vto_image id id argsImageNoMask =
      .error "IMAGE mask type selected but no mask image provided" := by
  refine ⟨rfl, rfl, ?_, rfl, rfl, ?_⟩
  · exact image_mask_missing_rejected.1 reqVtoImageNoMask rfl rfl
  · exact image_mask_missing_rejected.2 id id argsImageNoMask rfl (by decide) rfl

/-- C5 counterexample: reqVtoNoUid passes validation (its optional uid is
simply absent), yet the handler answers HTTP 500, not the accepted
response: constructing NovaVTOResponse with request_id=None raises a
pydantic ValidationError. -/
theorem accepted_response_counterexample :
    validate_mask_dependencies reqVtoNoUid = .ok reqVtoNoUid ∧
    (process_nova_vto (some "genfn") false reqVtoNoUid).1 = .httpException 500 :=
  ⟨rfl, rfl⟩

/-- C5 amended: for every validated request the synchronous response is
computed solely from the request — independent of the configured function
name and of every submission outcome; it is the accepted acknowledgment
carrying the pre-planned object_names whenever the response can be
constructed (always for the model route; for the VTO route exactly when
the request carries a uid), while a validated VTO request without uid gets
HTTP 500 from the response construction — still independent of submission
outcomes. -/
theorem response_independent_of_outcomes (request : NovaModelRequest)
    (requestV : NovaVTORequest) :
    (∀ fn invokeFails,
       (process_nova_model fn invokeFails request).1 =
         { request_id := request.uid, status := "accepted"
           object_names := request.object_names
           message := "Nova Model processing request accepted. Images will be saved to S3." }) ∧
    (∀ fn invokeFails fn2 invokeFails2,
       (process_nova_model fn invokeFails request).1 =
         (process_nova_model fn2 invokeFails2 request).1) ∧
    (∀ uid, requestV.uid = some uid →
       ∀ fn invokeFails,
         (process_nova_vto fn invokeFails requestV).1 =
           .response
             { request_id := uid, status := "accepted"
               object_names := requestV.object_names
               message := "VTO processing request accepted. Images will be saved to S3." }) ∧
    (requestV.uid = none →
       ∀ fn invokeFails,
         (process_nova_vto fn invokeFails requestV).1 = .httpException 500) ∧
    (∀ fn invokeFails fn2 invokeFails2,
       (process_nova_vto fn invokeFails requestV).1 =
         (process_nova_vto fn2 invokeFails2 requestV).1) := by
  refine ⟨fun _ _ => rfl, fun _ _ _ _ => rfl, ?_, ?_, ?_⟩
  · intro uid h fn invokeFails
    simp [process_nova_vto, h]
  · intro h fn invokeFails
    simp [process_nova_vto, h]
  · intro fn invokeFails fn2 invokeFails2
    cases h : requestV.uid <;> simp [process_nova_vto, h]

/-- C5 witness: the amended theorem applied to reqVtoImageNoMask (uid
present: accepted response) and reqVtoNoUid (uid absent: HTTP 500). -/
theorem response_independent_of_outcomes_witness :
    reqVtoImageNoMask.uid = some "req-3" ∧
    (process_nova_vto (some "genfn") true reqVtoImageNoMask).1 =
      .response
        { request_id := "req-3", status := "accepted"
          object_names := some ["v0"]
          message := "VTO processing request accepted. Images will be saved to S3." } ∧
    reqVtoNoUid.uid = none ∧
    (process_nova_vto (some "genfn") true reqVtoNoUid).1 = .httpException 500 := by
  refine ⟨rfl, ?_, rfl, ?_⟩
  · exact (response_independent_of_outcomes reqN2 reqVtoImageNoMask).2.2.1
      "req-3" rfl (some "genfn") true
  · exact (response_independent_of_outcomes reqN2 reqVtoNoUid).2.2.2.1
      rfl (some "genfn") true

/-- C6: during the nova2 parallel fan-out, a submission failure of any unit
does not change which payloads are submitted (all N units are still
submitted, in order), and the route still answers accepted with all N
object names. -/
theorem per_unit_fault_isolation (fn : Option String) (invokeFails : Nat → Bool)
    (request : NovaModelRequest)
    (hfn : functionNameSet fn = true)
    (hm : request.model_id = "nova2")
    (hlen : request.number_of_images ≤ request.object_names.length) :
    (invoke_nova_model_generation_lambda fn invokeFails request).map Prod.fst =
      (invoke_nova_model_generation_lambda fn (fun _ => false) request).map Prod.fst ∧
    (invoke_nova_model_generation_lambda fn invokeFails request).length =
      request.number_of_images ∧
    (process_nova_model fn invokeFails request).1.status = "accepted" ∧
    (process_nova_model fn invokeFails request).1.object_names =
      request.object_names := by
  rw [invoke_nova_model_nova2 fn invokeFails request hfn hm hlen,
      invoke_nova_model_nova2 fn (fun _ => false) request hfn hm hlen]
  refine ⟨?_, by simp, rfl, rfl⟩
  simp [List.map_map, Function.comp]

/-- C6 witness: the theorem applied to reqN2 with the submission of unit 2
of 3 failing. -/
theorem per_unit_fault_isolation_witness :
    functionNameSet (some "genfn") = true ∧
    reqN2.model_id = "nova2" ∧
    reqN2.number_of_images ≤ reqN2.object_names.length ∧
    ((invoke_nova_model_generation_lambda (some "genfn")
        (fun i => decide (i = 1)) reqN2).map Prod.fst =
      (invoke_nova_model_generation_lambda (some "genfn")
        (fun _ => false) reqN2).map Prod.fst ∧
     (invoke_nova_model_generation_lambda (some "genfn")
        (fun i => decide (i = 1)) reqN2).length = reqN2.number_of_images ∧
     (process_nova_model (some "genfn") (fun i => decide (i = 1)) reqN2).1.status =
        "accepted" ∧
     (process_nova_model (some "genfn") (fun i => decide (i = 1)) reqN2).1.object_names =
        reqN2.object_names) :=
  ⟨by decide, by decide, by decide,
   per_unit_fault_isolation (some "genfn") (fun i => decide (i = 1)) reqN2
     (by decide) (by decide) (by decide)⟩

/-- C8 counterexample: with the function name unset, the dispatcher submits
nothing for the validated uid-less request reqVtoNoUid, but the endpoint
answers HTTP 500 (its response construction raises), not the normal
accepted response the claim asserts. -/
theorem unset_function_name_counterexample :
    functionNameSet none = false ∧
    validate_mask_dependencies reqVtoNoUid = .ok reqVtoNoUid ∧
    invoke_vto_generation_lambda none false reqVtoNoUid = [] ∧
    (process_nova_vto none false reqVtoNoUid).1 = .httpException 500 :=
  ⟨rfl, rfl, rfl, rfl⟩

/-- C8 amended: with VTO_GEN_FUNCTION_NAME unset, both dispatchers submit
nothing at all, and the configuration fault is never surfaced per-request:
each route answers exactly what it would answer were the function
configured — the accepted response with the request's object names always
for the model route, and for the VTO route whenever the request carries a
uid (a validated uid-less VTO request gets HTTP 500 from response
construction, configured or not). -/
theorem unset_function_name_noop (fn : Option String) (invokeFails : Nat → Bool)
    (invokeFailsV : Bool) (request : NovaModelRequest) (requestV : NovaVTORequest)
    (h : functionNameSet fn = false) :
    invoke_nova_model_generation_lambda fn invokeFails request = [] ∧
    (process_nova_model fn invokeFails request).1.status = "accepted" ∧
    (process_nova_model fn invokeFails request).1.object_names =
      request.object_names ∧
    invoke_vto_generation_lambda fn invokeFailsV requestV = [] ∧
    (∀ fn2 invokeFails2,
       (process_nova_vto fn invokeFailsV requestV).1 =
         (process_nova_vto fn2 invokeFails2 requestV).1) ∧
    (∀ uid, requestV.uid = some uid →
       (process_nova_vto fn invokeFailsV requestV).1 =
         .response
           { request_id := uid, status := "accepted"
             object_names := requestV.object_names
             message := "VTO processing request accepted. Images will be saved to S3." }) := by
  refine ⟨?_, rfl, rfl, ?_, ?_, ?_⟩
  · simp [invoke_nova_model_generation_lambda, h]
  · simp [invoke_vto_generation_lambda, h]
  · intro fn2 invokeFails2
    cases hu : requestV.uid <;> simp [process_nova_vto, hu]
  · intro uid hu
    simp [process_nova_vto, hu]

/-- C8 witness: the amended theorem applied with the function name absent
to the concrete requests reqN2 and reqVtoImageNoMask (uid present). -/
theorem unset_function_name_noop_witness :
    functionNameSet none = false ∧
    invoke_nova_model_generation_lambda none (fun _ => false) reqN2 = [] ∧
    invoke_vto_generation_lambda none false reqVtoImageNoMask = [] ∧
    reqVtoImageNoMask.uid = some "req-3" ∧
    (process_nova_vto none false reqVtoImageNoMask).1 =
      .response
        { request_id := "req-3", status := "accepted"
          object_names := some ["v0"]
          message := "VTO processing request accepted. Images will be saved to S3." } := by
  have h := unset_function_name_noop none (fun _ => false) false reqN2
    reqVtoImageNoMask rfl
  exact ⟨rfl, h.1, h.2.2.2.1, rfl, h.2.2.2.2.2 "req-3" rfl⟩

/-- C4: the binarized mask holds only the values 0 and 255; for an RGBA
array the pixel maps to 255 exactly when its alpha exceeds the 128
threshold (the boundary value alpha = 128 maps to 0); for a non-RGBA
3-dimensional array the per-pixel channel mean is thresholded the same
way, and a 2-dimensional grayscale array is thresholded on its raw
values. -/
theorem pil_to_binary_mask_binarization :
    (∀ img v, v ∈ (pil_to_binary_mask img).flatten → v = 0 ∨ v = 255) ∧
    (∀ px i j pix, lastDim px = 4 → pixAt px i j = some pix →
       cellAt (pil_to_binary_mask (.planes px)) i j =
         some (if 128 < pix.getD 3 0 then 255 else 0)) ∧
    (∀ px i j pix, lastDim px = 4 → pixAt px i j = some pix →
       pix.getD 3 0 = 128 →
       cellAt (pil_to_binary_mask (.planes px)) i j = some 0) ∧
    (∀ px i j pix, lastDim px ≠ 4 → pixAt px i j = some pix →
       cellAt (pil_to_binary_mask (.planes px)) i j =
         some (if (128 : Rat) < channelMean pix then 255 else 0)) ∧
    (∀ px i j v, cellAt px i j = some v →
       cellAt (pil_to_binary_mask (.gray px)) i j =
         some (if 128 < v then 255 else 0)) := by
  refine ⟨?_, ?_, ?_, ?_, ?_⟩
  · intro img v hv
    rw [List.mem_flatten] at hv
    obtain ⟨row, hrow, hvrow⟩ := hv
    cases img with
    | planes px =>
      rw [pil_to_binary_mask] at hrow
      by_cases h4 : lastDim px = 4
      · rw [if_pos h4] at hrow
        obtain ⟨row0, _, rfl⟩ := List.mem_map.mp hrow
        obtain ⟨pix, _, rfl⟩ := List.mem_map.mp hvrow
        by_cases hc : 128 < pix.getD 3 0
        · rw [if_pos hc]; right; rfl
        · rw [if_neg hc]; left; rfl
      · rw [if_neg h4] at hrow
        obtain ⟨row0, _, rfl⟩ := List.mem_map.mp hrow
        obtain ⟨pix, _, rfl⟩ := List.mem_map.mp hvrow
        by_cases hc : (128 : Rat) < channelMean pix
        · rw [if_pos hc]; right; rfl
        · rw [if_neg hc]; left; rfl
    | gray px =>
      rw [pil_to_binary_mask] at hrow
      obtain ⟨row0, _, rfl⟩ := List.mem_map.mp hrow
      obtain ⟨w, _, rfl⟩ := List.mem_map.mp hvrow
      by_cases hc : 128 < w
      · rw [if_pos hc]; right; rfl
      · rw [if_neg hc]; left; rfl
  · intro px i j pix h4 hp
    rw [pil_to_binary_mask, if_pos h4, cellAt_map_planes, hp]
    rfl
  · intro px i j pix h4 hp h128
    rw [pil_to_binary_mask, if_pos h4, cellAt_map_planes, hp]
    show some (if 128 < pix.getD 3 0 then 255 else 0) = some 0
    rw [h128]
    norm_num
  · intro px i j pix h4 hp
    rw [pil_to_binary_mask, if_neg h4, cellAt_map_planes, hp]
    rfl
  · intro px i j v hp
    rw [pil_to_binary_mask, cellAt_map_gray, hp]
    rfl

/-- C4 witness: the theorem applied to the 2x2 RGBA quadrant fixture with
alpha values 0, 0, 255, 255 (which normalizes to 0, 0, 255, 255) and to
the alpha = 128 boundary fixture (which normalizes to 0). -/
theorem pil_to_binary_mask_binarization_witness :
    lastDim quadPx = 4 ∧
    pixAt quadPx 1 0 = some [70, 80, 90, 255] ∧
    cellAt (pil_to_binary_mask (.planes quadPx)) 1 0 = some 255 ∧
    pil_to_binary_mask (.planes quadPx) = [[0, 0], [255, 255]] ∧
    lastDim boundaryPx = 4 ∧
    pixAt boundaryPx 0 0 = some [10, 20, 30, 128] ∧
    cellAt (pil_to_binary_mask (.planes boundaryPx)) 0 0 = some 0 := by
  refine ⟨rfl, rfl, ?_, by decide, rfl, rfl, ?_⟩
  · have h := pil_to_binary_mask_binarization.2.1 quadPx 1 0 [70, 80, 90, 255]
      rfl rfl
    exact h.trans (by norm_num [List.getD])
  · exact pil_to_binary_mask_binarization.2.2.1 boundaryPx 0 0 [10, 20, 30, 128]
      rfl rfl rfl

/-- C9: every per-unit payload of the nova2 parallel dispatch carries
neither a cfg_scale key nor a quality key, and the Nova 2 worker, whenever
it proceeds past its prompt guard, logs any cfg_scale/quality parameter it
does receive as ignored (with the value interpolated) while building its
outbound Converse request independently of those parameters; without a
usable prompt it returns the 400 response before logging anything. -/
theorem nova2_drops_cfg_quality :
    (∀ (request : NovaModelRequest) (invokeFails : Nat → Bool) p,
       p ∈ invoke_nova2_parallel request invokeFails →
       "cfg_scale" ∉ keys (unitParamsOf p.1) ∧
       "quality" ∉ keys (unitParamsOf p.1)) ∧
    (∀ (t : String → String) (render : JVal → String) (cfg : JVal)
       (params : List (String × JVal)),
       truthyStr (jStrD params "prompt" "") = true →
       (∀ v, jlookup "cfg_scale" params = some v →
          ("Ignoring cfg_scale parameter: " ++ render v ++
             " (not supported by Nova 2)") ∈
            (generate_with_nova2 t render cfg params).1) ∧
       (∀ v, jlookup "quality" params = some v →
          ("Ignoring quality parameter: " ++ render v ++
             " (not supported by Nova 2)") ∈
            (generate_with_nova2 t render cfg params).1) ∧
       (∀ v w, (generate_with_nova2 t render cfg
                  (("cfg_scale", v) :: ("quality", w) :: params)).2 =
               (generate_with_nova2 t render cfg params).2)) ∧
    (∀ (t : String → String) (render : JVal → String) (cfg : JVal)
       (params : List (String × JVal)),
       truthyStr (jStrD params "prompt" "") = false →
       generate_with_nova2 t render cfg params =
         ([], .error nova2PromptRequiredResponse)) := by
  refine ⟨?_, ?_, ?_⟩
  · intro request invokeFails p hp
    rw [invoke_nova2_parallel] at hp
    obtain ⟨i, name, rfl⟩ := mem_nova2SubmitLoop request invokeFails _ p hp
    constructor <;> simp [unitParamsOf, nova2Payload, nova2UnitParams, keys]
  · intro t render cfg params hprompt
    refine ⟨?_, ?_, ?_⟩
    · intro v hv
      simp [generate_with_nova2, hprompt, nova2IgnoredParamLogs, hv]
    · intro v hv
      simp [generate_with_nova2, hprompt, nova2IgnoredParamLogs, hv]
    · intro v w
      simp only [jStrD] at hprompt
      simp [generate_with_nova2, build_converse_request, jStrD, jIntD, jlookup,
            hprompt]
  · intro t render cfg params hprompt
    simp [generate_with_nova2, hprompt]

/-- C9 witness: the first payload dispatched for reqN2 carries no
cfg_scale/quality key; a worker receiving a prompt together with a
cfg_scale parameter logs the interpolated ignore line; a worker receiving
cfg_scale without a prompt returns the 400 response and logs nothing. -/
theorem nova2_drops_cfg_quality_witness :
    ((nova2Payload reqN2 0 "n0", true) ∈
       invoke_nova2_parallel reqN2 (fun _ => false)) ∧
    "cfg_scale" ∉ keys (unitParamsOf (nova2Payload reqN2 0 "n0")) ∧
    "quality" ∉ keys (unitParamsOf (nova2Payload reqN2 0 "n0")) ∧
    truthyStr (jStrD nova2ParamsWithCfg "prompt" "") = true ∧
    jlookup "cfg_scale" nova2ParamsWithCfg = some (.num 8) ∧
    ("Ignoring cfg_scale parameter: " ++ renderValue (.num 8) ++
       " (not supported by Nova 2)") ∈
      (generate_with_nova2 id renderValue .null nova2ParamsWithCfg).1 ∧
    truthyStr (jStrD [("cfg_scale", JVal.num 8)] "prompt" "") = false ∧
    generate_with_nova2 id renderValue .null [("cfg_scale", JVal.num 8)] =
      ([], .error nova2PromptRequiredResponse) := by
  have hmem : (nova2Payload reqN2 0 "n0", true) ∈
      invoke_nova2_parallel reqN2 (fun _ => false) :=
    List.mem_cons_self _ _
  have hkeys := nova2_drops_cfg_quality.1 reqN2 (fun _ => false) _ hmem
  refine ⟨hmem, hkeys.1, hkeys.2, rfl, rfl, ?_, rfl, ?_⟩
  · exact (nova2_drops_cfg_quality.2.1 id renderValue .null nova2ParamsWithCfg
      rfl).1 (.num 8) rfl
  · exact nova2_drops_cfg_quality.2.2 id renderValue .null
      [("cfg_scale", JVal.num 8)] rfl

/-- C10: in each of the three image-saving loops, an image at index idx is
written only when idx is below the length of the pre-allocated object_names
list and only under the key object_names[idx]; indices beyond the list are
never written, and every written key belongs to object_names. -/
theorem save_loop_writes_subset (images names : List String) :
    (∀ idx key, (idx, key) ∈ process_vto_image_saves images names →
       idx < names.length ∧ names.get? idx = some key) ∧
    (∀ idx key, names.length ≤ idx →
       (idx, key) ∉ process_vto_image_saves images names) ∧
    (∀ key, key ∈ (process_vto_image_saves images names).map Prod.snd →
       key ∈ names) ∧
    (∀ idx key, (idx, key) ∈ generate_text_to_image_saves images names →
       idx < names.length ∧ names.get? idx = some key) ∧
    (∀ idx key, names.length ≤ idx →
       (idx, key) ∉ generate_text_to_image_saves images names) ∧
    (∀ key, key ∈ (generate_text_to_image_saves images names).map Prod.snd →
       key ∈ names) ∧
    (∀ idx key, (idx, key) ∈ replace_background_saves images names →
       idx < names.length ∧ names.get? idx = some key) ∧
    (∀ idx key, names.length ≤ idx →
       (idx, key) ∉ replace_background_saves images names) ∧
    (∀ key, key ∈ (replace_background_saves images names).map Prod.snd →
       key ∈ names) := by
  have p1 : ∀ idx key, (idx, key) ∈ saveImagesLoop images names →
      idx < names.length ∧ names.get? idx = some key :=
    fun idx key h => mem_saveImagesLoop images names idx key h
  have p2 : ∀ idx key, names.length ≤ idx →
      (idx, key) ∉ saveImagesLoop images names := by
    intro idx key hlen hmem
    exact absurd (p1 idx key hmem).1 (by omega)
  have p3 : ∀ key, key ∈ (saveImagesLoop images names).map Prod.snd →
      key ∈ names := by
    intro key hk
    obtain ⟨a, ha, haeq⟩ := List.mem_map.mp hk
    have h2 := (p1 a.1 a.2 ha).2
    rw [← haeq]
    exact List.get?_mem h2
  exact ⟨p1, p2, p3, p1, p2, p3, p1, p2, p3⟩

/-- C10 witness: the theorem applied to 3 generated images and 2
pre-allocated names: index 0 is written under the first name, index 2 is
never written. -/
theorem save_loop_writes_subset_witness :
    ((0, "k0") ∈ process_vto_image_saves ["i0", "i1", "i2"] ["k0", "k1"]) ∧
    (0 < (["k0", "k1"] : List String).length ∧
       (["k0", "k1"] : List String).get? 0 = some "k0") ∧
    ¬ ((2, "k0") ∈ process_vto_image_saves ["i0", "i1", "i2"] ["k0", "k1"]) := by
  have hmem : (0, "k0") ∈ process_vto_image_saves ["i0", "i1", "i2"] ["k0", "k1"] :=
    List.mem_cons_self _ _
  refine ⟨hmem, ?_, ?_⟩
  · exact (save_loop_writes_subset ["i0", "i1", "i2"] ["k0", "k1"]).1 0 "k0" hmem
  · exact (save_loop_writes_subset ["i0", "i1", "i2"] ["k0", "k1"]).2.1 2 "k0"
      (by decide)

end GenaiDesignStudio
